import Mathlib

/-!
Shallow embedding of the index-artifact cache and external-indexer
invocation subsystem of `load.py` (functions `d2vwitch`, `ffmsindex`,
`run_process`, `correct_byte_for_range`, `update_index_path_reference`,
`json_load`, `json_dump`, `random_name`, and the class
`Index_managment_prep`), together with theorems settling the frozen
claims about the natural-language specification.

Modelling conventions:
* The filesystem is an explicit state: an association list from path
  strings to file contents plus a list of existing directories.
* Nondeterministic externals (`tempfile` random names, `shutil.which`,
  `os.access`, the exit status and filesystem effect of the external
  tool, and I/O failure of `json.dump`) are parameters gathered in a
  `World` record.
* Functions that mutate the filesystem or spawn processes thread a
  state `St` (filesystem, event trace, random counter) and record
  their externally visible effects in the trace.  Pure informational
  logging (`logger.info`) is elided; error logging (`logger_error`)
  is kept as a trace event.
* Raised Python exceptions become `Except.error`.  In the embedded
  fragment every `raise` happens before any filesystem mutation or
  subprocess spawn, so no state is carried on the error side.
* Python string/path helpers (`str.split` on a one-character
  separator, `str.strip`, `str.startswith`, `os.path.join/basename/
  dirname/splitext`) are implemented structurally on character lists
  so that concrete runs evaluate by `rfl`/`decide`.
-/

/-- Split a character list on a separator character; mirrors Python's
`str.split(sep)` for a one-character separator (`''.split(sep) == ['']`). -/
def charSplit : List Char → Char → List (List Char)
  | [], _ => [[]]
  | c :: cs, sep =>
    let r := charSplit cs sep
    if c = sep then [] :: r
    else
      match r with
      | [] => [[c]]
      | h :: t => (c :: h) :: t

/-- Python `str.split` with a one-character separator, on `String`. -/
def strSplit (s : String) (sep : Char) : List String :=
  (charSplit s.data sep).map fun l => ⟨l⟩

/-- Python `str.startswith`. -/
def strStarts (s pre : String) : Bool :=
  pre.data.isPrefixOf s.data

/-- Python `str.strip` (whitespace on both ends). -/
def pyStrip (s : String) : String :=
  ⟨((s.data.dropWhile Char.isWhitespace).reverse.dropWhile Char.isWhitespace).reverse⟩

/-- Embeds `os.path.join` for the shapes used by the embedded code (second
component relative, first without a trailing separator). -/
def joinP (d f : String) : String :=
  if d = "" then f else d ++ "/" ++ f

/-- Embeds `os.path.basename`. -/
def basenameP (s : String) : String :=
  (strSplit s '/').getLastD ""

/-- Embeds `os.path.dirname`. -/
def dirnameP (s : String) : String :=
  String.intercalate "/" (strSplit s '/').dropLast

/-- The root part of `os.path.splitext` for an ordinary basename. -/
def stemOf (s : String) : String :=
  let parts := strSplit s '.'
  if parts.length ≤ 1 then s else String.intercalate "." parts.dropLast

/-- Update an association list at a key (Python `d[k] = v`). -/
def setkv {β : Type} (l : List (String × β)) (k : String) (v : β) : List (String × β) :=
  if (l.lookup k).isSome then
    l.map fun kv => if kv.1 = k then (k, v) else kv
  else
    l ++ [(k, v)]

/-- Remove a key from an association list (Python `del d[k]`). -/
def delk {β : Type} (l : List (String × β)) (k : String) : List (String × β) :=
  l.filter fun kv => kv.1 != k

/-- A Python value passed for the `re_use_indexing` argument: the
check in the source is dynamic, so the argument can be a bool, an
int or a string. -/
inductive PyVal : Type
  | pbool (b : Bool)
  | pint (n : Int)
  | pstr (s : String)
deriving DecidableEq

/-- Python `==` against a bool (`True == 1`, `False == 0`, strings
never equal bools); this is what `x in [True, False]` tests. -/
def pyEqBool : PyVal → Bool → Bool
  | .pbool b, c => b == c
  | .pint n, c => n == (if c then 1 else 0)
  | .pstr _, _ => false

/-- Python truthiness of the values `re_use_indexing` can take. -/
def pyTruthy : PyVal → Bool
  | .pbool b => b
  | .pint n => n != 0
  | .pstr s => s != ""

/-- Content of a file: either a JSON object of string pairs (as
written by `json_dump` for the reference manifests) or raw text
(source files, index artifacts, tool binaries). -/
inductive Content : Type
  | jsonC (m : List (String × String))
  | rawC (s : String)
deriving DecidableEq

/-- Filesystem state: files (path to content) and directories. -/
structure FS : Type where
  files : List (String × Content)
  dirs : List String
deriving DecidableEq

def FS.isfile (fs : FS) (p : String) : Bool :=
  (fs.files.lookup p).isSome

def FS.isdir (fs : FS) (p : String) : Bool :=
  fs.dirs.contains p

/-- Embeds `os.path.exists`. -/
def FS.existsP (fs : FS) (p : String) : Bool :=
  fs.isfile p || fs.isdir p

def FS.write (fs : FS) (p : String) (c : Content) : FS :=
  ⟨setkv fs.files p c, fs.dirs⟩

def FS.removeF (fs : FS) (p : String) : FS :=
  ⟨fs.files.filter (fun pc => pc.1 != p), fs.dirs⟩

/-- Embeds `os.listdir` restricted to regular files (the embedded code always
pairs the listing with an `os.path.isfile` check). -/
def FS.listdir (fs : FS) (d : String) : List String :=
  fs.files.filterMap fun pc =>
    if dirnameP pc.1 = d then some (basenameP pc.1) else none

/-- Externally visible events of one call. -/
inductive Event : Type
  | toolRun (cmd : String)
  | fileWrite (path : String)
  | fileDelete (path : String)
  | patch (path : String) (range : String)
  | logError (msg : String)
deriving DecidableEq

/-- Mutable state threaded through the embedded functions. -/
structure St : Type where
  fs : FS
  trace : List Event
  ctr : Nat
deriving DecidableEq

/-- External nondeterminism: random names from `tempfile`, `shutil.which`,
`os.access`, the exit status of `os.system`, the files the external tool
writes, and which `json.dump` targets succeed. -/
structure World : Type where
  rand : Nat → String
  which : String → Option String
  access : String → Bool
  exit_code : Int
  toolWrites : List (String × Content)
  dumpOk : String → Bool

/-- Raised Python exceptions of the embedded fragment. -/
inductive PyErr : Type
  | valueError (msg : String)
  | notInPATH (exec_name : String)
deriving DecidableEq

/-- Embeds `random_name()`: an unpredictable fresh name from the world. -/
def random_name (w : World) (s : St) : String × St :=
  (w.rand s.ctr, { s with ctr := s.ctr + 1 })

/-- Embeds `json_load(storage, filename)`: parse the file as a JSON mapping;
any I/O or parse failure yields the empty mapping. -/
def json_load (fs : FS) (storage filename : String) : List (String × String) :=
  match fs.files.lookup (joinP storage filename) with
  | some (.jsonC m) => m
  | some (.rawC _) => []
  | none => []

/-- Embeds `json_dump(storage, filename, template)`: write the mapping as JSON,
reporting success; failure is logged and reported as `false`. -/
def json_dump (w : World) (storage filename : String) (m : List (String × String))
    (s : St) : Bool × St :=
  let path := joinP storage filename
  if w.dumpOk path then
    (true, { s with fs := s.fs.write path (.jsonC m),
                    trace := s.trace ++ [.fileWrite path] })
  else
    (false, { s with trace := s.trace ++ [.logError "json dump failed"] })

/-- Embeds `os.makedirs(p)` with `FileExistsError` passed over. -/
def makedirs (p : String) (s : St) : St :=
  if s.fs.isdir p then s
  else { s with fs := ⟨s.fs.files, s.fs.dirs ++ [p]⟩ }

/-- Embeds `run_process(cmd)`: run the external tool on a worker thread that is
immediately joined; the tool's filesystem effect is the world's
`toolWrites`; returns whether the exit status is zero. -/
def writeAll (l : List (String × Content)) (fs : FS) : FS :=
  l.foldl (fun acc pc => acc.write pc.1 pc.2) fs

def run_process (w : World) (cmd : String) (s : St) : Bool × St :=
  let s := { s with fs := writeAll w.toolWrites s.fs,
                    trace := s.trace ++ [.toolRun cmd] }
  (w.exit_code == 0, s)

/-- Lines of a text file as Python's file iteration yields them
(each line keeps its trailing newline; no empty final line). -/
def reNl : List (List Char) → List (List Char)
  | [] => []
  | [last] => if last = [] then [] else [last]
  | p :: rest => (p ++ ['\n']) :: reNl rest

def pyLines (s : String) : List (List Char) :=
  reNl (charSplit s.data '\n')

/-- The byte offset accumulated by the scan loop of
`correct_byte_for_range`: lengths of the lines before the first line
whose stripped content starts with `YUVRGB_Scale` (the file length if
no such line exists, exactly as the Python loop leaves `offset`). -/
def markerOffset : List (List Char) → Nat
  | [] => 0
  | l :: ls =>
    if strStarts (pyStrip ⟨l⟩) "YUVRGB_Scale" then 0
    else l.length + markerOffset ls

/-- Result of the in-place byte patch on one file content. -/
structure PatchOut : Type where
  content : String
  wrote : Bool
  readFlag : Bool
deriving DecidableEq

/-- Overwrite characters of `content` starting at `off` with `txt`
(in-place file write at a seek position; extends the file when the
write reaches past the end, never truncates). -/
def overwriteAt (content : String) (off : Nat) (txt : String) : String :=
  ⟨content.data.take off ++ txt.data ++ content.data.drop (off + txt.data.length)⟩

/-- The pure core of `correct_byte_for_range` acting on one file
content: scan for the `YUVRGB_Scale` line, and — only when the
accumulated offset is non-zero — read the flag byte at `offset + 13`
and overwrite the marker line when it differs from the desired flag. -/
def correct_byte_pure (content : String) (input_range : String) : PatchOut :=
  let input_range_number : Char := if input_range = "full" then '0' else '1'
  let off := markerOffset (pyLines content)
  if off ≠ 0 then
    let flag := content.data.get? (off + 13)
    if flag ≠ some input_range_number then
      ⟨overwriteAt content off ("YUVRGB_Scale=" ++ ⟨[input_range_number]⟩), true, true⟩
    else ⟨content, false, true⟩
  else ⟨content, false, false⟩

/-- Embeds `correct_byte_for_range(d2v_path, input_range)`: open the artifact
and apply the patch.  A missing file makes `open` raise
(`FileNotFoundError` is outside the function's `try`); the patch
application itself is recorded as a trace event.  A manifest (JSON)
content at the path is not given patch semantics here: the pipeline
only ever points this function at index artifacts. -/
def correct_byte_for_range (d2v_path input_range : String) (s : St) : Except PyErr St :=
  match s.fs.files.lookup d2v_path with
  | none => .error (.valueError "FileNotFoundError")
  | some (.jsonC _) =>
    .ok { s with trace := s.trace ++ [.patch d2v_path input_range] }
  | some (.rawC c) =>
    let out := correct_byte_pure c input_range
    let s := { s with trace := s.trace ++ [.patch d2v_path input_range] }
    if out.wrote then
      .ok { s with fs := s.fs.write d2v_path (.rawC out.content) }
    else .ok s

/-- Embeds `Index_managment_prep.get_reflist_name`: scan the indexing
directory for the first regular file whose name starts with
`index_ext + "list"`; when none exists, create one holding the
placeholder dictionary, returning the empty string if the dump fails. -/
def get_reflist_name (w : World) (indexing_dir index_ext : String) (s : St) :
    String × St :=
  match (s.fs.listdir indexing_dir).filter
      (fun f => strStarts f (index_ext ++ "list")) with
  | f :: _ => (f, s)
  | [] =>
    let (rn, s) := random_name w s
    let reflist_name := index_ext ++ "list" ++ rn
    let (isDumped, s) := json_dump w indexing_dir reflist_name
        [("filebase", "index file")] s
    if isDumped then (reflist_name, s)
    else ("", { s with trace := s.trace ++
        [.logError "json failed to create empty dictionary"] })

/-- Embeds `Index_managment_prep.get_index_path_using_reflist`. -/
def get_index_path_using_reflist (w : World) (source index_ext indexing_dir : String)
    (re_use_indexing : PyVal) (s : St) :
    (Bool × String × String × List (String × String)) × St :=
  let (reflist_name, s) := get_reflist_name w indexing_dir index_ext s
  let (index_path, file_index_ref, s) :=
    if pyTruthy re_use_indexing then
      let fir := json_load s.fs indexing_dir reflist_name
      if fir = [] then ("", fir, s)
      else
        match fir.lookup (basenameP source) with
        | none => ("", fir, s)
        | some ip =>
          if s.fs.existsP ip then (ip, fir, s)
          else ("", delk fir (basenameP source), s)
    else ("", [], s)
  if index_path = "" then
    let (rn, s) := random_name w s
    ((true, joinP indexing_dir (rn ++ "." ++ index_ext), reflist_name, file_index_ref), s)
  else
    ((false, index_path, reflist_name, file_index_ref), s)

/-- Embeds `Index_managment_prep.get_index_path` (co-located mode). -/
def get_index_path (fs : FS) (file index_ext indexing_dir : String)
    (re_use_indexing : PyVal) : Bool × String :=
  let name := stemOf (basenameP file)
  let index_path := joinP indexing_dir (name ++ "." ++ index_ext)
  if pyTruthy re_use_indexing then
    if fs.isfile index_path then (false, index_path)
    else (true, index_path)
  else (true, index_path)

/-- The fallback step of `get_exec_path` (taken when the executable was
not resolved through the process search path). -/
def exec_fallback (fs : FS) (fallback_tool_dir exec_name : String) :
    Except PyErr String :=
  if fallback_tool_dir ≠ "" ∧ fs.isdir fallback_tool_dir then
    .ok fallback_tool_dir
  else
    .error (.notInPATH exec_name)

/-- Embeds `Index_managment_prep.get_exec_path`.  Note the exact control flow
of the source: when `exec_dir` is empty and `shutil.which` finds an
existing file, only a log message can be emitted about a missing
execute permission, `exec_dir` stays empty, and control still reaches
the `os.path.isdir(exec_dir)` check. -/
def get_exec_path (w : World) (fs : FS)
    (exec_dir exec_name fallback_tool_dir : String) : Except PyErr String :=
  let step : Except PyErr (String × String) :=
    if exec_dir = "" then
      match w.which exec_name with
      | some p =>
        if p ≠ "" ∧ fs.isfile p then
          -- a failed `os.access(p, os.X_OK)` is only logged here
          .ok (exec_dir, p)
        else
          (exec_fallback fs fallback_tool_dir exec_name).map fun d => (d, "")
      | none =>
        (exec_fallback fs fallback_tool_dir exec_name).map fun d => (d, "")
    else .ok (exec_dir, "")
  match step with
  | .error e => .error e
  | .ok (exec_dir, exec_path) =>
    if ¬ fs.isdir exec_dir then
      .error (.valueError ("directory for " ++ exec_name ++
        " is not a directory: " ++ exec_dir))
    else
      let exec_path := if exec_path = "" then joinP exec_dir exec_name else exec_path
      if fs.isfile exec_path then .ok exec_path
      else
        let exec_path := exec_path ++ ".exe"
        if fs.isfile exec_path then .ok exec_path
        else .error (.valueError (exec_name ++ " executable is not in dir"))

/-- The resolved fields of `Index_managment_prep` after `__init__`. -/
structure Prep : Type where
  isIndexing : Bool
  index_path : String
  reflist_name : String
  file_index_ref : List (String × String)
  exec_path : String
  using_reflist : Bool
  indexing_dir : String
deriving DecidableEq

/-- Embeds `Index_managment_prep.__init__`: argument validation, executable
resolution, then either the namespaced (reference-list) or the
co-located index-path resolution. -/
def indexPrep (w : World) (index_ext exec_name source : String)
    (re_use_indexing : PyVal) (exec_dir indexing_dir fallback_tool_dir : String)
    (s : St) : Except PyErr (Prep × St) :=
  if source = "" then
    .error (.valueError ("[" ++ exec_name ++ "] no source argument for indexing"))
  else if ¬ s.fs.isfile source then
    .error (.valueError ("[" ++ exec_name ++ "] not a file: " ++ source))
  else if ¬ (pyEqBool re_use_indexing true || pyEqBool re_use_indexing false) then
    .error (.valueError ("[" ++ exec_name ++
      "] re_use_indexing argument must be True or False"))
  else
    match get_exec_path w s.fs exec_dir exec_name fallback_tool_dir with
    | .error e => .error e
    | .ok exec_path =>
      if indexing_dir ≠ "" then
        if ¬ s.fs.isdir indexing_dir then
          .error (.valueError ("[" ++ exec_name ++
            "] argument indexing_dir is not a directory"))
        else
          let basename := basenameP (dirnameP source)
          let idir := joinP (joinP indexing_dir "indexing") basename
          let s := makedirs idir s
          let ((isIdx, ipath, rname, fir), s) :=
            get_index_path_using_reflist w source index_ext idir re_use_indexing s
          .ok (⟨isIdx, ipath, rname, fir, exec_path, true, idir⟩, s)
      else
        let idir := dirnameP source
        let (isIdx, ipath) := get_index_path s.fs source index_ext idir re_use_indexing
        .ok (⟨isIdx, ipath, "", [], exec_path, false, idir⟩, s)

/-- Embeds `update_index_path_reference`: record the new artifact in the
mapping, persist the mapping under a fresh random manifest name, and
only after a successful dump delete the old manifest file. -/
def update_index_path_reference (w : World) (file index_path : String)
    (file_index_ref : List (String × String))
    (indexing_dir reflist_name index_ext : String) (s : St) : St :=
  let fir := if file_index_ref = [] then json_load s.fs indexing_dir reflist_name
             else file_index_ref
  let fir := setkv fir (basenameP file) index_path
  let old_name := reflist_name
  let (rn, s) := random_name w s
  let reflist_name := index_ext ++ "list" ++ rn
  let (isDumped, s) := json_dump w indexing_dir reflist_name fir s
  if isDumped then
    let old_file := joinP indexing_dir old_name
    if s.fs.isfile old_file then
      { s with fs := s.fs.removeF old_file,
               trace := s.trace ++ [.fileDelete old_file] }
    else s
  else { s with trace := s.trace ++
      [.logError "json failed to store updated reference"] }

/-- The `while args:` loop of `d2vwitch` extracting the value after the
last `--input-range` option. -/
def parse_input_range : List String → String → String
  | [], acc => acc
  | a :: rest, acc =>
    if a = "--input-range" then
      match rest with
      | v :: rest' => parse_input_range rest' v
      | [] => acc
    else parse_input_range rest acc

/-- Embeds `d2vwitch(...)`: the mpeg2 indexing orchestrator. -/
def d2vwitch (w : World) (source indexing_dir d2vwitch_dir : String)
    (re_use_indexing : PyVal) (d2vwitch_options fallback_tool_dir : String)
    (s : St) : Except PyErr (String × St) :=
  match indexPrep w "d2v" "d2vwitch" source re_use_indexing d2vwitch_dir
      indexing_dir fallback_tool_dir s with
  | .error e => .error e
  | .ok (prep, s) =>
    if ¬ prep.isIndexing then
      let input_range := parse_input_range (strSplit d2vwitch_options ' ') "limited"
      match correct_byte_for_range prep.index_path input_range s with
      | .error e => .error e
      | .ok s => .ok (prep.index_path, s)
    else
      let cmd := "title d2vwitch creating:  " ++ prep.index_path ++
        " | mode con: cols=80 lines=6 | \"" ++ prep.exec_path ++ "\" " ++
        d2vwitch_options ++ "  --output \"" ++ prep.index_path ++ "\" \"" ++
        source ++ "\""
      let (isSuccess, s) := run_process w cmd s
      if isSuccess && s.fs.isfile prep.index_path then
        let s := if prep.using_reflist then
            update_index_path_reference w source prep.index_path
              prep.file_index_ref prep.indexing_dir prep.reflist_name "d2v" s
          else s
        .ok (prep.index_path, s)
      else
        .ok ("", { s with trace := s.trace ++
            [.logError "ERROR while indexing with d2vwitch"] })

/-- Embeds `ffmsindex(...)`: the frame-indexing orchestrator (no byte patch). -/
def ffmsindex (w : World) (source indexing_dir ffmsindex_dir : String)
    (re_use_indexing : PyVal) (fallback_tool_dir : String)
    (s : St) : Except PyErr (String × St) :=
  match indexPrep w "ffindex" "ffmsindex" source re_use_indexing ffmsindex_dir
      indexing_dir fallback_tool_dir s with
  | .error e => .error e
  | .ok (prep, s) =>
    if ¬ prep.isIndexing then
      .ok (prep.index_path, s)
    else
      let cmd := "title ffmsindex creating:  " ++ prep.index_path ++
        " | mode con: cols=80 lines=6 | \"" ++ prep.exec_path ++ "\" -f \"" ++
        source ++ "\" \"" ++ prep.index_path ++ "\""
      let (isSuccess, s) := run_process w cmd s
      if isSuccess && s.fs.isfile prep.index_path then
        let s := if prep.using_reflist then
            update_index_path_reference w source prep.index_path
              prep.file_index_ref prep.indexing_dir prep.reflist_name "ffindex" s
          else s
        .ok (prep.index_path, s)
      else
        .ok ("", { s with trace := s.trace ++
            [.logError "ERROR while indexing with ffmsindex"] })

/-- Returned artifact path of an orchestrator run (`none` when the run
raised). -/
def resultPath : Except PyErr (String × St) → Option String
  | .ok (p, _) => some p
  | .error _ => none

/-- Event trace left by an orchestrator run. -/
def resultTrace : Except PyErr (String × St) → List Event
  | .ok (_, s) => s.trace
  | .error _ => []

/-- Final filesystem of an orchestrator run. -/
def resultFS : Except PyErr (String × St) → FS
  | .ok (_, s) => s.fs
  | .error _ => ⟨[], []⟩

/-- Resolver fields of a constructor run. -/
def prepResult : Except PyErr (Prep × St) → Option Prep
  | .ok (p, _) => some p
  | .error _ => none

/-- Final filesystem of a constructor run. -/
def prepFS : Except PyErr (Prep × St) → FS
  | .ok (_, s) => s.fs
  | .error _ => ⟨[], []⟩

/-- Event trace left by a constructor run. -/
def prepTrace : Except PyErr (Prep × St) → List Event
  | .ok (_, s) => s.trace
  | .error _ => []

def isPatch : Event → Bool
  | .patch _ _ => true
  | _ => false

def isToolRun : Event → Bool
  | .toolRun _ => true
  | _ => false

def isFileWrite : Event → Bool
  | .fileWrite _ => true
  | _ => false

def isFileDelete : Event → Bool
  | .fileDelete _ => true
  | _ => false

/-- The paths of the manifest files of one cache directory: files whose
path extends `dir/(ext ++ "list")`, the prefix pattern scanned by
`get_reflist_name`. -/
def manifestFiles (fs : FS) (dir ext : String) : List String :=
  fs.files.filterMap fun pc =>
    if strStarts pc.1 (joinP dir (ext ++ "list")) then some pc.1 else none

/-! Concrete worlds and states used to instantiate the theorems. -/

/-- A deterministic stand-in for the `tempfile` random-name stream. -/
def randSeq : Nat → String
  | 0 => "R0"
  | 1 => "R1"
  | _ => "RX"

/-- Generic world: tool on the search path, indexing succeeds, every
JSON dump succeeds, the tool writes the co-located mpeg2 artifact. -/
def exW : World :=
  { rand := randSeq
    which := fun n => if n = "d2vwitch" then some "/usr/bin/d2vwitch" else none
    access := fun _ => true
    exit_code := 0
    toolWrites := [("/vids/movie.d2v", .rawC "hdr\nYUVRGB_Scale=1\n")]
    dumpOk := fun _ => true }

def exFS : FS :=
  { files := [("/vids/movie.mpg", .rawC "MPEG"),
              ("/tools/d2vwitch", .rawC "ELF"),
              ("/usr/bin/d2vwitch", .rawC "ELF")]
    dirs := ["/vids", "/tools", "/usr/bin"] }

def exS : St := { fs := exFS, trace := [], ctr := 0 }

/-- World for a failing indexing run: non-zero exit, nothing written. -/
def failW : World := { exW with exit_code := 1, toolWrites := [] }

/-- Namespaced reuse scenario: manifest in `/tmp/indexing/v` maps the
source basename to an artifact that exists. -/
def c5FS : FS :=
  { files := [("/v/clip.mpg", .rawC "MPEG"),
              ("/tools/d2vwitch", .rawC "ELF"),
              ("/tmp/indexing/v/d2vlistM0",
                .jsonC [("clip.mpg", "/tmp/indexing/v/A1.d2v")]),
              ("/tmp/indexing/v/A1.d2v", .rawC "x\nYUVRGB_Scale=1\n")]
    dirs := ["/v", "/tools", "/tmp", "/tmp/indexing", "/tmp/indexing/v"] }

def c5S : St := { fs := c5FS, trace := [], ctr := 0 }

/-- Namespaced stale-entry scenario: the manifest references an artifact
that no longer exists; the tool will write the regenerated artifact. -/
def c7FS : FS :=
  { files := [("/v/clip.mpg", .rawC "MPEG"),
              ("/tools/d2vwitch", .rawC "ELF"),
              ("/tmp/indexing/v/d2vlistM0",
                .jsonC [("clip.mpg", "/tmp/indexing/v/GONE.d2v")])]
    dirs := ["/v", "/tools", "/tmp", "/tmp/indexing", "/tmp/indexing/v"] }

def c7W : World :=
  { exW with which := fun _ => none
             toolWrites := [("/tmp/indexing/v/R0.d2v", .rawC "d2v data")] }

def c7S : St := { fs := c7FS, trace := [], ctr := 0 }

/-- Manifest-replacement scenario: one manifest in `/cache`. -/
def c6FS : FS :=
  { files := [("/cache/d2vlistOLD", .jsonC [("a.mpg", "/cache/R9.d2v")])]
    dirs := ["/cache"] }

def c6S : St := { fs := c6FS, trace := [], ctr := 0 }

/-- The resolver record produced in the `c5S` reuse scenario. -/
def c5Prep : Prep :=
  ⟨false, "/tmp/indexing/v/A1.d2v", "d2vlistM0",
   [("clip.mpg", "/tmp/indexing/v/A1.d2v")], "/tools/d2vwitch", true, "/tmp/indexing/v"⟩

/-- Namespaced scenario with an existing cache subdirectory holding no
manifest yet. -/
def c9FS : FS :=
  { files := [("/v/clip.mpg", .rawC "MPEG"), ("/tools/d2vwitch", .rawC "ELF")]
    dirs := ["/v", "/tools", "/tmp", "/tmp/indexing", "/tmp/indexing/v"] }

def c9S : St := { fs := c9FS, trace := [], ctr := 0 }

/-! Association-list, string and path lemmas. -/

theorem lookup_append_right {β : Type} (l l' : List (String × β)) (k : String)
    (h : l.lookup k = none) : (l ++ l').lookup k = l'.lookup k := by
  induction l with
  | nil => rfl
  | cons a t ih =>
    obtain ⟨a1, a2⟩ := a
    by_cases hk : k = a1
    · subst hk; simp [List.lookup] at h
    · have hb : (k == a1) = false := by simpa using hk
      simp only [List.lookup, hb] at h
      simpa [List.lookup, hb] using ih h

theorem lookup_mem {β : Type} (l : List (String × β)) (k : String) (v : β)
    (h : l.lookup k = some v) : (k, v) ∈ l := by
  induction l with
  | nil => simp [List.lookup] at h
  | cons a t ih =>
    obtain ⟨a1, a2⟩ := a
    by_cases hk : k = a1
    · subst hk
      simp [List.lookup] at h
      simp [h]
    · have hb : (k == a1) = false := by simpa using hk
      simp only [List.lookup, hb] at h
      exact List.mem_cons_of_mem _ (ih h)

theorem mem_lookup_isSome {β : Type} (l : List (String × β)) (k : String) (v : β)
    (h : (k, v) ∈ l) : (l.lookup k).isSome = true := by
  induction l with
  | nil => simp at h
  | cons a t ih =>
    obtain ⟨a1, a2⟩ := a
    by_cases hk : k = a1
    · subst hk; simp [List.lookup]
    · have hb : (k == a1) = false := by simpa using hk
      rcases List.mem_cons.mp h with h1 | h2
      · exact absurd (congrArg Prod.fst h1) hk
      · simpa [List.lookup, hb] using ih h2

theorem lookup_map_update {β : Type} (l : List (String × β)) (k : String) (v : β)
    (h : (l.lookup k).isSome = true) :
    ((l.map fun kv => if kv.1 = k then (k, v) else kv).lookup k) = some v := by
  induction l with
  | nil => simp [List.lookup] at h
  | cons a t ih =>
    obtain ⟨a1, a2⟩ := a
    simp only [List.map]
    by_cases hk : a1 = k
    · subst hk
      rw [if_pos rfl]
      simp [List.lookup]
    · rw [if_neg hk]
      have hb : (k == a1) = false := by simp [Ne.symm hk]
      simp only [List.lookup, hb] at h
      simp only [List.lookup, hb]
      exact ih h

theorem lookup_setkv_self {β : Type} (l : List (String × β)) (k : String) (v : β) :
    (setkv l k v).lookup k = some v := by
  by_cases h : (l.lookup k).isSome = true
  · unfold setkv
    rw [if_pos h]
    exact lookup_map_update l k v h
  · have h' : l.lookup k = none := by
      rcases ho : l.lookup k with _ | c
      · rfl
      · rw [ho] at h; simp at h
    unfold setkv
    rw [if_neg h, lookup_append_right l [(k, v)] k h']
    simp [List.lookup]

theorem lookup_filter_ne {β : Type} (l : List (String × β)) (q k : String)
    (h : k ≠ q) : ((l.filter fun pc => pc.1 != q).lookup k) = l.lookup k := by
  induction l with
  | nil => rfl
  | cons a t ih =>
    obtain ⟨a1, a2⟩ := a
    simp only [List.filter]
    by_cases hq : a1 = q
    · subst hq
      have hb : (k == a1) = false := by simpa using h
      simp only [show (((a1, a2).1 != a1) = false) by simp]
      simp only [List.lookup, hb]
      exact ih
    · have hbq : (((a1, a2).1 != q) = true) := by simpa using hq
      simp only [hbq]
      by_cases hk : k = a1
      · subst hk; simp [List.lookup]
      · have hb : (k == a1) = false := by simpa using hk
        simp only [List.lookup, hb]
        exact ih

theorem isPrefixOf_append (x y : List Char) : x.isPrefixOf (x ++ y) = true := by
  induction x with
  | nil => simp [List.isPrefixOf]
  | cons c t ih => simp [List.isPrefixOf, ih]

theorem strStarts_append (x y : String) : strStarts (x ++ y) x = true := by
  simp only [strStarts, String.data_append]
  exact isPrefixOf_append x.data y.data

theorem joinP_append (d a b : String) : joinP d (a ++ b) = joinP d a ++ b := by
  unfold joinP
  split
  · rfl
  · simp [String.append_assoc]

theorem joinP_inj (d a b : String) (h : joinP d a = joinP d b) : a = b := by
  unfold joinP at h
  by_cases hd : d = ""
  · simpa [hd] using h
  · simp only [hd, if_false] at h
    have hdata : (d ++ "/" ++ a).data = (d ++ "/" ++ b).data := congrArg String.data h
    simp only [String.data_append] at hdata
    exact String.ext (List.append_cancel_left hdata)

/-! Scenario lemmas for the manifest store and the resolver. -/

theorem reflist_found (w : World) (dir ext f : String) (rest : List String) (s : St)
    (hfind : (s.fs.listdir dir).filter (fun g => strStarts g (ext ++ "list")) = f :: rest) :
    get_reflist_name w dir ext s = (f, s) := by
  unfold get_reflist_name
  rw [hfind]

theorem reflist_create (w : World) (dir ext : String) (s : St)
    (hscan : (s.fs.listdir dir).filter (fun g => strStarts g (ext ++ "list")) = [])
    (hdump : w.dumpOk (joinP dir (ext ++ "list" ++ w.rand s.ctr)) = true) :
    get_reflist_name w dir ext s =
      (ext ++ "list" ++ w.rand s.ctr,
       { fs := s.fs.write (joinP dir (ext ++ "list" ++ w.rand s.ctr))
                 (.jsonC [("filebase", "index file")]),
         trace := s.trace ++ [.fileWrite (joinP dir (ext ++ "list" ++ w.rand s.ctr))],
         ctr := s.ctr + 1 }) := by
  unfold get_reflist_name
  rw [hscan]
  simp [random_name, json_dump, hdump]

theorem reflist_create_fail (w : World) (dir ext : String) (s : St)
    (hscan : (s.fs.listdir dir).filter (fun g => strStarts g (ext ++ "list")) = [])
    (hdump : w.dumpOk (joinP dir (ext ++ "list" ++ w.rand s.ctr)) = false) :
    (get_reflist_name w dir ext s).1 = "" := by
  unfold get_reflist_name
  rw [hscan]
  simp [random_name, json_dump, hdump]

theorem reuse_hit (w : World) (source ext dir f : String) (rest : List String)
    (fir : List (String × String)) (ip : String) (s : St)
    (hfind : (s.fs.listdir dir).filter (fun g => strStarts g (ext ++ "list")) = f :: rest)
    (hload : json_load s.fs dir f = fir)
    (hfir : fir ≠ [])
    (hlk : fir.lookup (basenameP source) = some ip)
    (hex : s.fs.existsP ip = true)
    (hip : ip ≠ "") :
    get_index_path_using_reflist w source ext dir (.pbool true) s =
      ((false, ip, f, fir), s) := by
  unfold get_index_path_using_reflist
  rw [reflist_found w dir ext f rest s hfind]
  simp only [pyTruthy, if_true, hload]
  rw [if_neg hfir, hlk]
  simp only [hex, if_true]
  rw [if_neg hip]

theorem reuse_stale (w : World) (source ext dir f : String) (rest : List String)
    (fir : List (String × String)) (ip : String) (s : St)
    (hfind : (s.fs.listdir dir).filter (fun g => strStarts g (ext ++ "list")) = f :: rest)
    (hload : json_load s.fs dir f = fir)
    (hfir : fir ≠ [])
    (hlk : fir.lookup (basenameP source) = some ip)
    (hex : s.fs.existsP ip = false) :
    get_index_path_using_reflist w source ext dir (.pbool true) s =
      ((true, joinP dir (w.rand s.ctr ++ "." ++ ext), f, delk fir (basenameP source)),
       { s with ctr := s.ctr + 1 }) := by
  unfold get_index_path_using_reflist
  rw [reflist_found w dir ext f rest s hfind]
  simp only [pyTruthy, if_true, hload]
  rw [if_neg hfir, hlk]
  simp only [hex, Bool.false_eq_true, if_false]
  simp [random_name]

theorem no_reuse_create (w : World) (source ext dir : String) (ru : PyVal) (s : St)
    (hru : pyTruthy ru = false)
    (hscan : (s.fs.listdir dir).filter (fun g => strStarts g (ext ++ "list")) = [])
    (hdump : w.dumpOk (joinP dir (ext ++ "list" ++ w.rand s.ctr)) = true) :
    get_index_path_using_reflist w source ext dir ru s =
      ((true, joinP dir (w.rand (s.ctr + 1) ++ "." ++ ext), ext ++ "list" ++ w.rand s.ctr, []),
       { fs := s.fs.write (joinP dir (ext ++ "list" ++ w.rand s.ctr))
                 (.jsonC [("filebase", "index file")]),
         trace := s.trace ++ [.fileWrite (joinP dir (ext ++ "list" ++ w.rand s.ctr))],
         ctr := s.ctr + 2 }) := by
  unfold get_index_path_using_reflist
  rw [reflist_create w dir ext s hscan hdump]
  simp [hru, random_name]

theorem indexPrep_namespaced (w : World) (ext en source : String) (ru : PyVal)
    (ed idir fd ep : String) (s : St)
    (hsrc : source ≠ "") (hfile : s.fs.isfile source = true)
    (hru : (pyEqBool ru true || pyEqBool ru false) = true)
    (hexec : get_exec_path w s.fs ed en fd = .ok ep)
    (hidir : idir ≠ "") (hdir : s.fs.isdir idir = true)
    (hsub : s.fs.isdir (joinP (joinP idir "indexing") (basenameP (dirnameP source))) = true) :
    indexPrep w ext en source ru ed idir fd s =
      (match get_index_path_using_reflist w source ext
          (joinP (joinP idir "indexing") (basenameP (dirnameP source))) ru s with
       | ((isIdx, ipath, rname, fir), s') =>
         .ok (⟨isIdx, ipath, rname, fir, ep, true,
               joinP (joinP idir "indexing") (basenameP (dirnameP source))⟩, s')) := by
  unfold indexPrep
  rw [if_neg hsrc]
  simp only [hfile, hru, hexec, Bool.not_true, Bool.false_eq_true, if_false]
  rw [if_pos hidir]
  simp only [hdir, Bool.not_true, Bool.false_eq_true, if_false]
  unfold makedirs
  simp only [hsub, if_true]
  simp

theorem lookup_map_ne {β : Type} (l : List (String × β)) (k k' : String) (v : β)
    (h : k' ≠ k) :
    ((l.map fun kv => if kv.1 = k then (k, v) else kv).lookup k') = l.lookup k' := by
  induction l with
  | nil => rfl
  | cons a t ih =>
    obtain ⟨a1, a2⟩ := a
    simp only [List.map]
    by_cases hk : a1 = k
    · subst hk
      rw [if_pos rfl]
      have hb : (k' == a1) = false := by simpa using h
      simp only [List.lookup, hb]
      exact ih
    · rw [if_neg hk]
      by_cases hk' : k' = a1
      · subst hk'; simp [List.lookup]
      · have hb : (k' == a1) = false := by simpa using hk'
        simp only [List.lookup, hb]
        exact ih

theorem lookup_append_single_ne {β : Type} (l : List (String × β)) (k k' : String)
    (v : β) (h : k' ≠ k) : ((l ++ [(k, v)]).lookup k') = l.lookup k' := by
  induction l with
  | nil =>
    have hb : (k' == k) = false := by simpa using h
    simp [List.lookup, hb]
  | cons a t ih =>
    obtain ⟨a1, a2⟩ := a
    by_cases hk' : k' = a1
    · subst hk'; simp [List.lookup]
    · have hb : (k' == a1) = false := by simpa using hk'
      simp only [List.cons_append, List.lookup, hb]
      exact ih

theorem lookup_setkv_ne {β : Type} (l : List (String × β)) (k k' : String) (v : β)
    (h : k' ≠ k) : (setkv l k v).lookup k' = l.lookup k' := by
  unfold setkv
  by_cases hs : (l.lookup k).isSome = true
  · rw [if_pos hs]
    exact lookup_map_ne l k k' v h
  · rw [if_neg hs]
    exact lookup_append_single_ne l k k' v h

theorem update_success (w : World) (file ipath : String) (fir : List (String × String))
    (dir rname ext : String) (s : St)
    (hdump : w.dumpOk (joinP dir (ext ++ "list" ++ w.rand s.ctr)) = true)
    (hne : joinP dir rname ≠ joinP dir (ext ++ "list" ++ w.rand s.ctr))
    (hold : s.fs.isfile (joinP dir rname) = true) :
    update_index_path_reference w file ipath fir dir rname ext s =
      { fs := (s.fs.write (joinP dir (ext ++ "list" ++ w.rand s.ctr))
                 (.jsonC (setkv (if fir = [] then json_load s.fs dir rname else fir)
                           (basenameP file) ipath))).removeF (joinP dir rname),
        trace := s.trace ++ [.fileWrite (joinP dir (ext ++ "list" ++ w.rand s.ctr)),
                             .fileDelete (joinP dir rname)],
        ctr := s.ctr + 1 } := by
  unfold update_index_path_reference
  simp only [random_name, json_dump, hdump, if_true]
  have hstill : (s.fs.write (joinP dir (ext ++ "list" ++ w.rand s.ctr))
      (.jsonC (setkv (if fir = [] then json_load s.fs dir rname else fir)
        (basenameP file) ipath))).isfile (joinP dir rname) = true := by
    simp only [FS.isfile, FS.write]
    rw [lookup_setkv_ne _ _ _ _ hne]
    simp only [FS.isfile] at hold
    exact hold
  simp only [hstill, if_true]
  simp

theorem update_fail (w : World) (file ipath : String) (fir : List (String × String))
    (dir rname ext : String) (s : St)
    (hdump : w.dumpOk (joinP dir (ext ++ "list" ++ w.rand s.ctr)) = false) :
    update_index_path_reference w file ipath fir dir rname ext s =
      { s with trace := s.trace ++ [.logError "json dump failed",
                                    .logError "json failed to store updated reference"],
               ctr := s.ctr + 1 } := by
  unfold update_index_path_reference
  simp only [random_name, json_dump, hdump]
  simp

theorem update_trace_filter (pr : Event → Bool)
    (hw : ∀ p, pr (.fileWrite p) = false)
    (hdl : ∀ p, pr (.fileDelete p) = false)
    (hle : ∀ m, pr (.logError m) = false)
    (w : World) (file ipath : String) (fir : List (String × String))
    (dir rname ext : String) (s : St) :
    ((update_index_path_reference w file ipath fir dir rname ext s).trace).filter pr
      = s.trace.filter pr := by
  unfold update_index_path_reference
  simp only [random_name, json_dump]
  by_cases hd : w.dumpOk (joinP dir (ext ++ "list" ++ w.rand s.ctr)) = true
  · simp only [hd, if_true]
    split <;> (split <;> simp [List.filter_append, hw, hdl])
  · simp only [hd]
    simp [List.filter_append, hw, hle]

theorem setkv_of_lookup_none {β : Type} (l : List (String × β)) (k : String) (v : β)
    (h : l.lookup k = none) : setkv l k v = l ++ [(k, v)] := by
  unfold setkv
  rw [h]
  rfl

theorem manifestFiles_write_new (fs : FS) (dir ext p : String) (c : Content)
    (hpre : strStarts p (joinP dir (ext ++ "list")) = true)
    (hnotin : fs.files.lookup p = none) :
    manifestFiles (fs.write p c) dir ext = manifestFiles fs dir ext ++ [p] := by
  unfold manifestFiles FS.write
  rw [setkv_of_lookup_none fs.files p c hnotin]
  rw [List.filterMap_append]
  simp [hpre]

theorem filterMap_filter_comm (files : List (String × Content)) (pre q : String) :
    ((files.filter fun pc => pc.1 != q).filterMap
      fun pc => if strStarts pc.1 pre then some pc.1 else none)
    = (files.filterMap fun pc => if strStarts pc.1 pre then some pc.1 else none).filter
        fun p => p != q := by
  induction files with
  | nil => rfl
  | cons a t ih =>
    obtain ⟨a1, a2⟩ := a
    by_cases hq : a1 = q
    · subst hq
      by_cases hp : strStarts a1 pre = true
      · simp [List.filter, List.filterMap, hp, ih]
      · simp [List.filter, List.filterMap, hp, ih]
    · have hbq : ((a1, a2).1 != q) = true := by simpa using hq
      by_cases hp : strStarts a1 pre = true
      · simp [List.filter, List.filterMap, hbq, hp, ih]
      · simp [List.filter, List.filterMap, hbq, hp, ih]

theorem manifestFiles_removeF (fs : FS) (dir ext q : String) :
    manifestFiles (fs.removeF q) dir ext
      = (manifestFiles fs dir ext).filter fun p => p != q := by
  unfold manifestFiles FS.removeF
  exact filterMap_filter_comm fs.files (joinP dir (ext ++ "list")) q

theorem mem_manifestFiles (fs : FS) (dir ext p : String) (c : Content)
    (hmem : (p, c) ∈ fs.files) (hpre : strStarts p (joinP dir (ext ++ "list")) = true) :
    p ∈ manifestFiles fs dir ext := by
  unfold manifestFiles
  exact List.mem_filterMap.mpr ⟨(p, c), hmem, by simp [hpre]⟩

theorem manifestFiles_sub (fs : FS) (dir ext p : String)
    (h : p ∈ manifestFiles fs dir ext) :
    (fs.files.lookup p).isSome = true ∧ strStarts p (joinP dir (ext ++ "list")) = true := by
  unfold manifestFiles at h
  rcases List.mem_filterMap.mp h with ⟨⟨p0, c0⟩, hmem, heq⟩
  by_cases hp : strStarts p0 (joinP dir (ext ++ "list")) = true
  · rw [if_pos hp] at heq
    have hp0 : p0 = p := by simpa using heq
    subst hp0
    exact ⟨mem_lookup_isSome _ _ _ hmem, hp⟩
  · rw [if_neg hp] at heq
    simp at heq

theorem strStarts_manifest_name (dir ext r : String) :
    strStarts (joinP dir (ext ++ "list" ++ r)) (joinP dir (ext ++ "list")) = true := by
  have h1 : ext ++ "list" ++ r = (ext ++ "list") ++ r := by
    rw [String.append_assoc]
  rw [h1, joinP_append]
  exact strStarts_append _ _

/-! Claim theorems. -/

/-- C1: the claim says that with an empty explicit tool directory and
the tool found on the process search path as an existing file,
resolution succeeds and returns that path.  The code disagrees: the
PATH-found branch leaves `exec_dir` empty, and the unconditional
`os.path.isdir(exec_dir)` check that follows raises `ValueError`, so
the successful PATH resolution can never be returned.  Here `shutil.which`
finds `/usr/bin/d2vwitch`, it exists as a file and is executable, yet
`get_exec_path` raises. -/
theorem C1_path_resolution_raises :
    exW.which "d2vwitch" = some "/usr/bin/d2vwitch" ∧
    exFS.isfile "/usr/bin/d2vwitch" = true ∧
    exW.access "/usr/bin/d2vwitch" = true ∧
    get_exec_path exW exFS "" "d2vwitch" "" =
      .error (.valueError "directory for d2vwitch is not a directory: ") := by
  exact ⟨rfl, rfl, rfl, rfl⟩

/-- C3 counterexample: the claim says a non-boolean `re_use_indexing`
such as the integer 1 or 0 makes the constructor raise the
invalid-policy error.  It does not: Python's `x in [True, False]`
compares with `==`, and `1 == True`, `0 == False`, so both constructor
calls succeed. -/
theorem C3_counterexample :
    (indexPrep exW "d2v" "d2vwitch" "/vids/movie.mpg" (.pint 1) "/tools" "" "" exS).isOk
      = true ∧
    (indexPrep exW "d2v" "d2vwitch" "/vids/movie.mpg" (.pint 0) "/tools" "" "" exS).isOk
      = true := by
  exact ⟨rfl, rfl⟩

/-- C3 (amended): the constructor raises the invalid-policy
`ValueError` before any subprocess is spawned or file mutated exactly
when `re_use_indexing` is not `==`-equal to `True` or `False`; the
integers 1 and 0 are accepted because they compare equal to the
booleans.  (In this embedding a raise returns `Except.error` before
any state-changing step is reached.) -/
theorem C3_re_use_validation (w : World) (ext en source : String) (ru : PyVal)
    (ed idir fd : String) (s : St)
    (hsrc : source ≠ "") (hfile : s.fs.isfile source = true)
    (ht : pyEqBool ru true = false) (hf : pyEqBool ru false = false) :
    indexPrep w ext en source ru ed idir fd s =
      .error (.valueError ("[" ++ en ++ "] re_use_indexing argument must be True or False")) := by
  unfold indexPrep
  rw [if_neg hsrc]
  simp [hfile, ht, hf]

/-- C3 witness: a string value is rejected. -/
theorem C3_witness :
    indexPrep exW "d2v" "d2vwitch" "/vids/movie.mpg" (.pstr "yes") "/tools" "" "" exS =
      .error (.valueError ("[" ++ "d2vwitch" ++
        "] re_use_indexing argument must be True or False")) :=
  C3_re_use_validation exW "d2v" "d2vwitch" "/vids/movie.mpg" (.pstr "yes") "/tools" "" ""
    exS (by decide) (by rfl) (by rfl) (by rfl)

/-- C10: when the very first line of the artifact is the marker line
(trimmed content starts with `YUVRGB_Scale`, so the accumulated offset
is zero), `correct_byte_for_range` reads no flag byte and writes
nothing, leaving the content unchanged, for every desired range. -/
theorem C10_marker_first_line (content input_range : String) (l : List Char)
    (rest : List (List Char))
    (hlines : pyLines content = l :: rest)
    (hmark : strStarts (pyStrip ⟨l⟩) "YUVRGB_Scale" = true) :
    correct_byte_pure content input_range = ⟨content, false, false⟩ := by
  unfold correct_byte_pure
  rw [hlines]
  simp [markerOffset, hmark]

/-- C10 witness: a concrete artifact whose first line is the marker. -/
theorem C10_witness :
    correct_byte_pure "YUVRGB_Scale=1\ndata\n" "full" =
      ⟨"YUVRGB_Scale=1\ndata\n", false, false⟩ :=
  C10_marker_first_line "YUVRGB_Scale=1\ndata\n" "full" "YUVRGB_Scale=1\n".data
    ["data\n".data] (by rfl) (by rfl)

/-- C4 counterexample: the claim says manifest creation persists an
empty mapping (a JSON object with no entries).  The code persists the
placeholder `{'filebase': 'index file'}`, a one-entry object. -/
theorem C4_counterexample :
    (get_reflist_name exW "/cache" "d2v" ⟨⟨[], ["/cache"]⟩, [], 0⟩).1 = "d2vlistR0" ∧
    ((get_reflist_name exW "/cache" "d2v" ⟨⟨[], ["/cache"]⟩, [], 0⟩).2.fs.files.lookup
        "/cache/d2vlistR0") = some (.jsonC [("filebase", "index file")]) ∧
    Content.jsonC [("filebase", "index file")] ≠ Content.jsonC [] := by
  refine ⟨rfl, rfl, ?_⟩
  decide

/-- C4 (amended): when no manifest with the prefix `indexKind + "list"`
exists in the cache subdirectory, `get_reflist_name` generates the
filename `indexKind ++ "list" ++ random` and persists under it the
one-entry placeholder mapping `filebase ↦ index file` (not an empty
mapping); when persistence fails, the empty filename is returned. -/
theorem C4_createEmpty (w : World) (dir ext : String) (s : St)
    (hscan : (s.fs.listdir dir).filter (fun g => strStarts g (ext ++ "list")) = []) :
    (w.dumpOk (joinP dir (ext ++ "list" ++ w.rand s.ctr)) = true →
      get_reflist_name w dir ext s =
        (ext ++ "list" ++ w.rand s.ctr,
         { fs := s.fs.write (joinP dir (ext ++ "list" ++ w.rand s.ctr))
                   (.jsonC [("filebase", "index file")]),
           trace := s.trace ++ [.fileWrite (joinP dir (ext ++ "list" ++ w.rand s.ctr))],
           ctr := s.ctr + 1 })) ∧
    (w.dumpOk (joinP dir (ext ++ "list" ++ w.rand s.ctr)) = false →
      (get_reflist_name w dir ext s).1 = "") :=
  ⟨fun hd => reflist_create w dir ext s hscan hd,
   fun hd => reflist_create_fail w dir ext s hscan hd⟩

/-- C4 witness: concrete empty cache directory, successful dump. -/
theorem C4_witness :
    get_reflist_name exW "/cache" "d2v" ⟨⟨[], ["/cache"]⟩, [], 0⟩ =
      ("d2v" ++ "list" ++ exW.rand 0,
       { fs := FS.write ⟨[], ["/cache"]⟩ (joinP "/cache" ("d2v" ++ "list" ++ exW.rand 0))
                 (.jsonC [("filebase", "index file")]),
         trace := [.fileWrite (joinP "/cache" ("d2v" ++ "list" ++ exW.rand 0))],
         ctr := 1 }) :=
  (C4_createEmpty exW "/cache" "d2v" ⟨⟨[], ["/cache"]⟩, [], 0⟩ (by rfl)).1 (by rfl)

/-- C2 counterexample: the claim says the range correction is applied
to every artifact `d2vwitch` returns, including a newly generated one.
In this run indexing happens (no prior artifact), the tool succeeds,
the fresh artifact is returned — and no range-correction is applied
(no patch event in the trace). -/
theorem C2_counterexample :
    (d2vwitch exW "/vids/movie.mpg" "" "/tools" (.pbool false) "" "" exS).map
      (fun r => (r.1, r.2.trace.filter isPatch)) = .ok ("/vids/movie.d2v", []) := by
  rfl

/-- C2 (amended): `d2vwitch` applies `correct_byte_for_range` exactly
when an existing artifact is reused (`isIndexing` false); a newly
generated artifact (indexing ran and succeeded) is returned without
the range correction. -/
theorem C2_patch_only_on_reuse (w : World) (source idir ddir : String) (ru : PyVal)
    (opts fdir : String) (s : St) (prep : Prep) (s1 : St)
    (hprep : indexPrep w "d2v" "d2vwitch" source ru ddir idir fdir s = .ok (prep, s1)) :
    (prep.isIndexing = false →
      ∀ ac : String, s1.fs.files.lookup prep.index_path = some (.rawC ac) →
        resultPath (d2vwitch w source idir ddir ru opts fdir s) = some prep.index_path ∧
        (resultTrace (d2vwitch w source idir ddir ru opts fdir s)).filter isPatch
          = s1.trace.filter isPatch ++
            [.patch prep.index_path (parse_input_range (strSplit opts ' ') "limited")]) ∧
    (prep.isIndexing = true →
      (w.exit_code == 0 && (writeAll w.toolWrites s1.fs).isfile prep.index_path) = true →
        resultPath (d2vwitch w source idir ddir ru opts fdir s) = some prep.index_path ∧
        (resultTrace (d2vwitch w source idir ddir ru opts fdir s)).filter isPatch
          = s1.trace.filter isPatch) := by
  constructor
  · intro hidx ac hlk
    unfold d2vwitch
    rw [hprep]
    simp only [hidx, Bool.not_false, if_true]
    unfold correct_byte_for_range
    rw [hlk]
    by_cases hw : (correct_byte_pure ac
        (parse_input_range (strSplit opts ' ') "limited")).wrote = true
    · simp [hw, resultPath, resultTrace, List.filter_append, isPatch]
    · simp [hw, resultPath, resultTrace, List.filter_append, isPatch]
  · intro hidx hsucc
    unfold d2vwitch
    rw [hprep]
    simp only [hidx, Bool.not_true, Bool.false_eq_true, if_false]
    unfold run_process
    simp only [hsucc, if_true]
    by_cases hur : prep.using_reflist = true
    · simp only [hur, if_true]
      constructor
      · simp [resultPath]
      · simp only [resultTrace, not_true, if_false]
        rw [update_trace_filter isPatch (fun _ => rfl) (fun _ => rfl) (fun _ => rfl)]
        simp [List.filter_append, isPatch]
    · simp only [hur]
      simp [resultPath, resultTrace, List.filter_append, isPatch]

/-- C2 witness: the namespaced reuse scenario instantiates the amended
theorem; the reuse branch is the live one. -/
theorem C2_witness :
    (c5Prep.isIndexing = false →
      ∀ ac : String, c5S.fs.files.lookup c5Prep.index_path = some (.rawC ac) →
        resultPath (d2vwitch exW "/v/clip.mpg" "/tmp" "/tools" (.pbool true) "" "" c5S)
          = some c5Prep.index_path ∧
        (resultTrace (d2vwitch exW "/v/clip.mpg" "/tmp" "/tools" (.pbool true) "" "" c5S)).filter
            isPatch
          = c5S.trace.filter isPatch ++
            [.patch c5Prep.index_path (parse_input_range (strSplit "" ' ') "limited")]) ∧
    (c5Prep.isIndexing = true →
      (exW.exit_code == 0 && (writeAll exW.toolWrites c5S.fs).isfile c5Prep.index_path) = true →
        resultPath (d2vwitch exW "/v/clip.mpg" "/tmp" "/tools" (.pbool true) "" "" c5S)
          = some c5Prep.index_path ∧
        (resultTrace (d2vwitch exW "/v/clip.mpg" "/tmp" "/tools" (.pbool true) "" "" c5S)).filter
            isPatch
          = c5S.trace.filter isPatch) :=
  C2_patch_only_on_reuse exW "/v/clip.mpg" "/tmp" "/tools" (.pbool true) "" "" c5S
    c5Prep c5S (by rfl)

/-- C8: `run_process` reports success exactly when the exit status is
zero, and for either orchestrator, when indexing ran and the tool
exited non-zero or the output file is missing afterwards, the call
returns the empty string (an `Except.ok`, not a raised failure)
and logs an indexing error. -/
theorem C8_indexing_failure :
    (∀ (w : World) (cmd : String) (s : St),
      (run_process w cmd s).1 = true ↔ w.exit_code = 0) ∧
    (∀ (w : World) (source idir ddir : String) (ru : PyVal) (opts fdir : String)
       (s : St) (prep : Prep) (s1 : St),
       indexPrep w "d2v" "d2vwitch" source ru ddir idir fdir s = .ok (prep, s1) →
       prep.isIndexing = true →
       (w.exit_code == 0 && (writeAll w.toolWrites s1.fs).isfile prep.index_path) = false →
       resultPath (d2vwitch w source idir ddir ru opts fdir s) = some "" ∧
       Event.logError "ERROR while indexing with d2vwitch" ∈
         resultTrace (d2vwitch w source idir ddir ru opts fdir s)) ∧
    (∀ (w : World) (source idir fdir2 : String) (ru : PyVal) (fdir : String)
       (s : St) (prep : Prep) (s1 : St),
       indexPrep w "ffindex" "ffmsindex" source ru fdir2 idir fdir s = .ok (prep, s1) →
       prep.isIndexing = true →
       (w.exit_code == 0 && (writeAll w.toolWrites s1.fs).isfile prep.index_path) = false →
       resultPath (ffmsindex w source idir fdir2 ru fdir s) = some "" ∧
       Event.logError "ERROR while indexing with ffmsindex" ∈
         resultTrace (ffmsindex w source idir fdir2 ru fdir s)) := by
  refine ⟨?_, ?_, ?_⟩
  · intro w cmd s
    unfold run_process
    simp
  · intro w source idir ddir ru opts fdir s prep s1 hprep hidx hfail
    unfold d2vwitch
    rw [hprep]
    simp only [hidx, not_true, if_false]
    unfold run_process
    simp only [hfail, Bool.false_eq_true, if_false]
    constructor
    · simp [resultPath]
    · simp [resultTrace]
  · intro w source idir fdir2 ru fdir s prep s1 hprep hidx hfail
    unfold ffmsindex
    rw [hprep]
    simp only [hidx, not_true, if_false]
    unfold run_process
    simp only [hfail, Bool.false_eq_true, if_false]
    constructor
    · simp [resultPath]
    · simp [resultTrace]

/-- C8 witness: a concrete failing run (exit status 1, no output
written) of each statement component. -/
theorem C8_witness :
    ((run_process failW "cmd" exS).1 = true ↔ failW.exit_code = 0) ∧
    (resultPath (d2vwitch failW "/vids/movie.mpg" "" "/tools" (.pbool false) "" "" exS)
       = some "" ∧
     Event.logError "ERROR while indexing with d2vwitch" ∈
       resultTrace (d2vwitch failW "/vids/movie.mpg" "" "/tools" (.pbool false) "" "" exS)) :=
  ⟨C8_indexing_failure.1 failW "cmd" exS,
   C8_indexing_failure.2.1 failW "/vids/movie.mpg" "" "/tools" (.pbool false) "" "" exS
     ⟨true, "/vids/movie.d2v", "", [], "/tools/d2vwitch", false, "/vids"⟩ exS
     (by rfl) (by rfl) (by rfl)⟩

/-- C5: namespaced mode, reuse enabled, manifest maps the source
basename to an artifact that exists on disk: resolution yields
`isIndexing = false` with the identical artifact path, `d2vwitch`
returns that path, and the run neither spawns the external tool nor
writes or deletes any file (in particular no manifest write). -/
theorem C5_reuse_no_reindex (w : World) (source ddir idir fd opts : String) (s : St)
    (ep f : String) (rest : List String) (fir : List (String × String)) (ip ac : String)
    (hsrc : source ≠ "") (hfile : s.fs.isfile source = true)
    (hexec : get_exec_path w s.fs ddir "d2vwitch" fd = .ok ep)
    (hidir : idir ≠ "") (hdir : s.fs.isdir idir = true)
    (hsub : s.fs.isdir (joinP (joinP idir "indexing") (basenameP (dirnameP source))) = true)
    (hfind : ((s.fs.listdir (joinP (joinP idir "indexing")
        (basenameP (dirnameP source)))).filter
        (fun g => strStarts g ("d2v" ++ "list"))) = f :: rest)
    (hload : json_load s.fs (joinP (joinP idir "indexing") (basenameP (dirnameP source))) f
        = fir)
    (hfir : fir ≠ [])
    (hlk : fir.lookup (basenameP source) = some ip)
    (hex : s.fs.existsP ip = true)
    (hip : ip ≠ "")
    (hac : s.fs.files.lookup ip = some (.rawC ac)) :
    prepResult (indexPrep w "d2v" "d2vwitch" source (.pbool true) ddir idir fd s)
      = some ⟨false, ip, f, fir, ep, true,
              joinP (joinP idir "indexing") (basenameP (dirnameP source))⟩ ∧
    resultPath (d2vwitch w source idir ddir (.pbool true) opts fd s) = some ip ∧
    (resultTrace (d2vwitch w source idir ddir (.pbool true) opts fd s)).filter isToolRun
      = s.trace.filter isToolRun ∧
    (resultTrace (d2vwitch w source idir ddir (.pbool true) opts fd s)).filter isFileWrite
      = s.trace.filter isFileWrite ∧
    (resultTrace (d2vwitch w source idir ddir (.pbool true) opts fd s)).filter isFileDelete
      = s.trace.filter isFileDelete := by
  have hprep : indexPrep w "d2v" "d2vwitch" source (.pbool true) ddir idir fd s =
      .ok (⟨false, ip, f, fir, ep, true,
            joinP (joinP idir "indexing") (basenameP (dirnameP source))⟩, s) := by
    rw [indexPrep_namespaced w "d2v" "d2vwitch" source (.pbool true) ddir idir fd ep s
      hsrc hfile (by rfl) hexec hidir hdir hsub]
    rw [reuse_hit w source "d2v" (joinP (joinP idir "indexing") (basenameP (dirnameP source)))
      f rest fir ip s hfind hload hfir hlk hex hip]
  refine ⟨by rw [hprep]; rfl, ?_⟩
  unfold d2vwitch
  rw [hprep]
  simp only [not_false_eq_true, if_true]
  unfold correct_byte_for_range
  rw [hac]
  by_cases hw : (correct_byte_pure ac
      (parse_input_range (strSplit opts ' ') "limited")).wrote = true
  · simp [hw, resultPath, resultTrace, List.filter_append, isToolRun, isFileWrite,
      isFileDelete]
  · simp [hw, resultPath, resultTrace, List.filter_append, isToolRun, isFileWrite,
      isFileDelete]

/-- C5 witness: the concrete reuse scenario. -/
theorem C5_witness :
    prepResult (indexPrep exW "d2v" "d2vwitch" "/v/clip.mpg" (.pbool true) "/tools" "/tmp"
        "" c5S)
      = some ⟨false, "/tmp/indexing/v/A1.d2v", "d2vlistM0",
              [("clip.mpg", "/tmp/indexing/v/A1.d2v")], "/tools/d2vwitch", true,
              joinP (joinP "/tmp" "indexing") (basenameP (dirnameP "/v/clip.mpg"))⟩ ∧
    resultPath (d2vwitch exW "/v/clip.mpg" "/tmp" "/tools" (.pbool true) "" "" c5S)
      = some "/tmp/indexing/v/A1.d2v" ∧
    (resultTrace (d2vwitch exW "/v/clip.mpg" "/tmp" "/tools" (.pbool true) "" "" c5S)).filter
        isToolRun = c5S.trace.filter isToolRun ∧
    (resultTrace (d2vwitch exW "/v/clip.mpg" "/tmp" "/tools" (.pbool true) "" "" c5S)).filter
        isFileWrite = c5S.trace.filter isFileWrite ∧
    (resultTrace (d2vwitch exW "/v/clip.mpg" "/tmp" "/tools" (.pbool true) "" "" c5S)).filter
        isFileDelete = c5S.trace.filter isFileDelete :=
  C5_reuse_no_reindex exW "/v/clip.mpg" "/tools" "/tmp" "" "" c5S "/tools/d2vwitch"
    "d2vlistM0" [] [("clip.mpg", "/tmp/indexing/v/A1.d2v")] "/tmp/indexing/v/A1.d2v"
    "x\nYUVRGB_Scale=1\n" (by decide) (by rfl) (by rfl) (by decide) (by rfl) (by rfl)
    (by rfl) (by rfl) (by decide) (by rfl) (by rfl) (by decide) (by rfl)

/-- C9: in namespaced mode, when the cache subdirectory holds no
manifest, the constructor itself creates one on disk even with
`re_use_indexing = false` and before any tool invocation: after the
constructor the manifest file exists with the placeholder content, the
trace records the file write, and no tool was run. -/
theorem C9_manifest_created_without_reuse (w : World) (source ddir idir fd : String)
    (s : St) (ep : String)
    (hsrc : source ≠ "") (hfile : s.fs.isfile source = true)
    (hexec : get_exec_path w s.fs ddir "d2vwitch" fd = .ok ep)
    (hidir : idir ≠ "") (hdir : s.fs.isdir idir = true)
    (hsub : s.fs.isdir (joinP (joinP idir "indexing") (basenameP (dirnameP source))) = true)
    (hscan : ((s.fs.listdir (joinP (joinP idir "indexing")
        (basenameP (dirnameP source)))).filter
        (fun g => strStarts g ("d2v" ++ "list"))) = [])
    (hdump : w.dumpOk (joinP (joinP (joinP idir "indexing") (basenameP (dirnameP source)))
        ("d2v" ++ "list" ++ w.rand s.ctr)) = true) :
    ((prepFS (indexPrep w "d2v" "d2vwitch" source (.pbool false) ddir idir fd s)).files.lookup
        (joinP (joinP (joinP idir "indexing") (basenameP (dirnameP source)))
          ("d2v" ++ "list" ++ w.rand s.ctr)))
      = some (.jsonC [("filebase", "index file")]) ∧
    Event.fileWrite (joinP (joinP (joinP idir "indexing") (basenameP (dirnameP source)))
        ("d2v" ++ "list" ++ w.rand s.ctr)) ∈
      prepTrace (indexPrep w "d2v" "d2vwitch" source (.pbool false) ddir idir fd s) ∧
    (prepTrace (indexPrep w "d2v" "d2vwitch" source (.pbool false) ddir idir fd s)).filter
        isToolRun = s.trace.filter isToolRun := by
  have hprep : indexPrep w "d2v" "d2vwitch" source (.pbool false) ddir idir fd s =
      .ok (⟨true,
            joinP (joinP (joinP idir "indexing") (basenameP (dirnameP source)))
              (w.rand (s.ctr + 1) ++ "." ++ "d2v"),
            "d2v" ++ "list" ++ w.rand s.ctr, [], ep, true,
            joinP (joinP idir "indexing") (basenameP (dirnameP source))⟩,
           { fs := s.fs.write (joinP (joinP (joinP idir "indexing")
                     (basenameP (dirnameP source))) ("d2v" ++ "list" ++ w.rand s.ctr))
                     (.jsonC [("filebase", "index file")]),
             trace := s.trace ++ [.fileWrite (joinP (joinP (joinP idir "indexing")
                       (basenameP (dirnameP source))) ("d2v" ++ "list" ++ w.rand s.ctr))],
             ctr := s.ctr + 2 }) := by
    rw [indexPrep_namespaced w "d2v" "d2vwitch" source (.pbool false) ddir idir fd ep s
      hsrc hfile (by rfl) hexec hidir hdir hsub]
    rw [no_reuse_create w source "d2v"
      (joinP (joinP idir "indexing") (basenameP (dirnameP source))) (.pbool false) s
      (by rfl) hscan hdump]
  rw [hprep]
  refine ⟨?_, ?_, ?_⟩
  · simp only [prepFS, FS.write]
    exact lookup_setkv_self _ _ _
  · simp [prepTrace]
  · simp [prepTrace, List.filter_append, isToolRun]

/-- C9 witness: concrete empty cache subdirectory, reuse disabled. -/
theorem C9_witness :
    ((prepFS (indexPrep exW "d2v" "d2vwitch" "/v/clip.mpg" (.pbool false) "/tools" "/tmp"
        "" c9S)).files.lookup
        (joinP (joinP (joinP "/tmp" "indexing") (basenameP (dirnameP "/v/clip.mpg")))
          ("d2v" ++ "list" ++ exW.rand 0)))
      = some (.jsonC [("filebase", "index file")]) ∧
    Event.fileWrite (joinP (joinP (joinP "/tmp" "indexing")
        (basenameP (dirnameP "/v/clip.mpg"))) ("d2v" ++ "list" ++ exW.rand 0)) ∈
      prepTrace (indexPrep exW "d2v" "d2vwitch" "/v/clip.mpg" (.pbool false) "/tools" "/tmp"
        "" c9S) ∧
    (prepTrace (indexPrep exW "d2v" "d2vwitch" "/v/clip.mpg" (.pbool false) "/tools" "/tmp"
        "" c9S)).filter isToolRun = c9S.trace.filter isToolRun :=
  C9_manifest_created_without_reuse exW "/v/clip.mpg" "/tools" "/tmp" "" c9S
    "/tools/d2vwitch" (by decide) (by rfl) (by rfl) (by decide) (by rfl) (by rfl)
    (by rfl) (by rfl)

/-- C6: manifest replacement writes the new manifest first and deletes
the old one only afterwards: when exactly one manifest file exists in
the directory and the freshly generated name differs from it, a
successful update leaves again exactly one manifest file (the new
one), so any number of successful updates preserves the
exactly-one-manifest invariant; and a failed write leaves the
filesystem — in particular the old manifest — untouched. -/
theorem C6_manifest_replace_safety (w : World) (file ipath : String)
    (fir : List (String × String)) (dir rname ext : String) (s : St)
    (hone : manifestFiles s.fs dir ext = [joinP dir rname])
    (hfresh : joinP dir (ext ++ "list" ++ w.rand s.ctr) ≠ joinP dir rname) :
    (w.dumpOk (joinP dir (ext ++ "list" ++ w.rand s.ctr)) = true →
      manifestFiles (update_index_path_reference w file ipath fir dir rname ext s).fs dir ext
        = [joinP dir (ext ++ "list" ++ w.rand s.ctr)]) ∧
    (w.dumpOk (joinP dir (ext ++ "list" ++ w.rand s.ctr)) = false →
      (update_index_path_reference w file ipath fir dir rname ext s).fs = s.fs) := by
  constructor
  · intro hdump
    have hmemold : joinP dir rname ∈ manifestFiles s.fs dir ext := by
      rw [hone]; exact List.mem_singleton.mpr rfl
    obtain ⟨holdSome, holdpre⟩ := manifestFiles_sub s.fs dir ext _ hmemold
    have hnpre : strStarts (joinP dir (ext ++ "list" ++ w.rand s.ctr))
        (joinP dir (ext ++ "list")) = true := strStarts_manifest_name dir ext _
    have hnotin : s.fs.files.lookup (joinP dir (ext ++ "list" ++ w.rand s.ctr)) = none := by
      rcases ho : s.fs.files.lookup (joinP dir (ext ++ "list" ++ w.rand s.ctr)) with _ | c
      · rfl
      · exfalso
        have hmem := lookup_mem _ _ _ ho
        have hin : joinP dir (ext ++ "list" ++ w.rand s.ctr) ∈ manifestFiles s.fs dir ext :=
          mem_manifestFiles s.fs dir ext _ c hmem hnpre
        rw [hone] at hin
        exact hfresh (List.mem_singleton.mp hin)
    rw [update_success w file ipath fir dir rname ext s hdump (Ne.symm hfresh) holdSome]
    rw [manifestFiles_removeF, manifestFiles_write_new s.fs dir ext _ _ hnpre hnotin, hone]
    have h1 : (joinP dir (ext ++ "list" ++ w.rand s.ctr) != joinP dir rname) = true := by
      simpa using hfresh
    have h2 : (joinP dir rname != joinP dir rname) = false := by simp
    simp [List.filter, h1, h2]
  · intro hdump
    rw [update_fail w file ipath fir dir rname ext s hdump]

/-- C6 witness: one manifest in `/cache`, a successful update replaces
it by the new one. -/
theorem C6_witness :
    (exW.dumpOk (joinP "/cache" ("d2v" ++ "list" ++ exW.rand 0)) = true →
      manifestFiles (update_index_path_reference exW "/v/a.mpg" "/cache/R5.d2v" []
          "/cache" "d2vlistOLD" "d2v" c6S).fs "/cache" "d2v"
        = [joinP "/cache" ("d2v" ++ "list" ++ exW.rand 0)]) ∧
    (exW.dumpOk (joinP "/cache" ("d2v" ++ "list" ++ exW.rand 0)) = false →
      (update_index_path_reference exW "/v/a.mpg" "/cache/R5.d2v" []
          "/cache" "d2vlistOLD" "d2v" c6S).fs = c6S.fs) :=
  C6_manifest_replace_safety exW "/v/a.mpg" "/cache/R5.d2v" [] "/cache" "d2vlistOLD"
    "d2v" c6S (by rfl) (by decide)

/-- Reading back a manifest just written under a fresh name after the
old manifest file was removed yields the written mapping. -/
theorem json_load_write_remove (fs : FS) (dir nm old : String)
    (m : List (String × String)) (hne : joinP dir nm ≠ old) :
    json_load ((fs.write (joinP dir nm) (.jsonC m)).removeF old) dir nm = m := by
  unfold json_load FS.removeF FS.write
  rw [lookup_filter_ne _ _ _ hne]
  rw [lookup_setkv_self]

/-- C7: namespaced reuse with a stale manifest entry (mapped artifact
no longer on disk): the resolver drops the entry from the in-memory
mapping and reports `isIndexing = true` with a fresh random artifact
path; after the tool succeeds, the rewritten manifest maps the source
basename to the new artifact path. -/
theorem C7_stale_entry_self_healing (w : World) (source ddir idir fd opts : String)
    (s : St) (ep f : String) (rest : List String) (fir : List (String × String))
    (ip : String)
    (hsrc : source ≠ "") (hfile : s.fs.isfile source = true)
    (hexec : get_exec_path w s.fs ddir "d2vwitch" fd = .ok ep)
    (hidir : idir ≠ "") (hdir : s.fs.isdir idir = true)
    (hsub : s.fs.isdir (joinP (joinP idir "indexing") (basenameP (dirnameP source))) = true)
    (hfind : ((s.fs.listdir (joinP (joinP idir "indexing")
        (basenameP (dirnameP source)))).filter
        (fun g => strStarts g ("d2v" ++ "list"))) = f :: rest)
    (hload : json_load s.fs (joinP (joinP idir "indexing") (basenameP (dirnameP source))) f
        = fir)
    (hfir : fir ≠ [])
    (hlk : fir.lookup (basenameP source) = some ip)
    (hex : s.fs.existsP ip = false)
    (hexit : w.exit_code = 0)
    (hout : (writeAll w.toolWrites s.fs).isfile
        (joinP (joinP (joinP idir "indexing") (basenameP (dirnameP source)))
          (w.rand s.ctr ++ "." ++ "d2v")) = true)
    (hdump : w.dumpOk (joinP (joinP (joinP idir "indexing") (basenameP (dirnameP source)))
        ("d2v" ++ "list" ++ w.rand (s.ctr + 1))) = true)
    (hmanifile : (writeAll w.toolWrites s.fs).isfile
        (joinP (joinP (joinP idir "indexing") (basenameP (dirnameP source))) f) = true)
    (hne2 : joinP (joinP (joinP idir "indexing") (basenameP (dirnameP source))) f ≠
        joinP (joinP (joinP idir "indexing") (basenameP (dirnameP source)))
          ("d2v" ++ "list" ++ w.rand (s.ctr + 1))) :
    prepResult (indexPrep w "d2v" "d2vwitch" source (.pbool true) ddir idir fd s)
      = some ⟨true,
              joinP (joinP (joinP idir "indexing") (basenameP (dirnameP source)))
                (w.rand s.ctr ++ "." ++ "d2v"),
              f, delk fir (basenameP source), ep, true,
              joinP (joinP idir "indexing") (basenameP (dirnameP source))⟩ ∧
    resultPath (d2vwitch w source idir ddir (.pbool true) opts fd s)
      = some (joinP (joinP (joinP idir "indexing") (basenameP (dirnameP source)))
          (w.rand s.ctr ++ "." ++ "d2v")) ∧
    ((json_load (resultFS (d2vwitch w source idir ddir (.pbool true) opts fd s))
        (joinP (joinP idir "indexing") (basenameP (dirnameP source)))
        ("d2v" ++ "list" ++ w.rand (s.ctr + 1))).lookup (basenameP source))
      = some (joinP (joinP (joinP idir "indexing") (basenameP (dirnameP source)))
          (w.rand s.ctr ++ "." ++ "d2v")) := by
  have hprep : indexPrep w "d2v" "d2vwitch" source (.pbool true) ddir idir fd s =
      .ok (⟨true,
            joinP (joinP (joinP idir "indexing") (basenameP (dirnameP source)))
              (w.rand s.ctr ++ "." ++ "d2v"),
            f, delk fir (basenameP source), ep, true,
            joinP (joinP idir "indexing") (basenameP (dirnameP source))⟩,
           { s with ctr := s.ctr + 1 }) := by
    rw [indexPrep_namespaced w "d2v" "d2vwitch" source (.pbool true) ddir idir fd ep s
      hsrc hfile (by rfl) hexec hidir hdir hsub]
    rw [reuse_stale w source "d2v" (joinP (joinP idir "indexing") (basenameP (dirnameP source)))
      f rest fir ip s hfind hload hfir hlk hex]
  refine ⟨by rw [hprep]; rfl, ?_⟩
  unfold d2vwitch
  rw [hprep]
  simp only [not_true, if_false]
  unfold run_process
  have hcond : ((w.exit_code == 0) &&
      (writeAll w.toolWrites s.fs).isfile
        (joinP (joinP (joinP idir "indexing") (basenameP (dirnameP source)))
          (w.rand s.ctr ++ "." ++ "d2v"))) = true := by
    simp [hexit, hout]
  simp only [hcond]
  rw [update_success w source
    (joinP (joinP (joinP idir "indexing") (basenameP (dirnameP source)))
      (w.rand s.ctr ++ "." ++ "d2v"))
    (delk fir (basenameP source))
    (joinP (joinP idir "indexing") (basenameP (dirnameP source))) f "d2v" _
    hdump hne2 hmanifile]
  constructor
  · simp [resultPath]
  · simp only [if_true, resultFS]
    rw [json_load_write_remove (writeAll w.toolWrites s.fs)
      (joinP (joinP idir "indexing") (basenameP (dirnameP source)))
      ("d2v" ++ "list" ++ w.rand (s.ctr + 1))
      (joinP (joinP (joinP idir "indexing") (basenameP (dirnameP source))) f)
      _ (Ne.symm hne2)]
    exact lookup_setkv_self _ _ _

/-- C7 witness: the concrete stale-entry scenario with a successful
regeneration. -/
theorem C7_witness :
    prepResult (indexPrep c7W "d2v" "d2vwitch" "/v/clip.mpg" (.pbool true) "/tools" "/tmp"
        "" c7S)
      = some ⟨true,
              joinP (joinP (joinP "/tmp" "indexing") (basenameP (dirnameP "/v/clip.mpg")))
                (c7W.rand 0 ++ "." ++ "d2v"),
              "d2vlistM0",
              delk [("clip.mpg", "/tmp/indexing/v/GONE.d2v")] (basenameP "/v/clip.mpg"),
              "/tools/d2vwitch", true,
              joinP (joinP "/tmp" "indexing") (basenameP (dirnameP "/v/clip.mpg"))⟩ ∧
    resultPath (d2vwitch c7W "/v/clip.mpg" "/tmp" "/tools" (.pbool true) "" "" c7S)
      = some (joinP (joinP (joinP "/tmp" "indexing") (basenameP (dirnameP "/v/clip.mpg")))
          (c7W.rand 0 ++ "." ++ "d2v")) ∧
    ((json_load (resultFS (d2vwitch c7W "/v/clip.mpg" "/tmp" "/tools" (.pbool true) "" "" c7S))
        (joinP (joinP "/tmp" "indexing") (basenameP (dirnameP "/v/clip.mpg")))
        ("d2v" ++ "list" ++ c7W.rand (0 + 1))).lookup (basenameP "/v/clip.mpg"))
      = some (joinP (joinP (joinP "/tmp" "indexing") (basenameP (dirnameP "/v/clip.mpg")))
          (c7W.rand 0 ++ "." ++ "d2v")) :=
  C7_stale_entry_self_healing c7W "/v/clip.mpg" "/tools" "/tmp" "" "" c7S "/tools/d2vwitch"
    "d2vlistM0" [] [("clip.mpg", "/tmp/indexing/v/GONE.d2v")] "/tmp/indexing/v/GONE.d2v"
    (by decide) (by rfl) (by rfl) (by decide) (by rfl) (by rfl) (by rfl) (by rfl)
    (by decide) (by rfl) (by rfl) (by rfl) (by rfl) (by rfl) (by rfl) (by decide)
